import Mathlib

/-!
Shallow embedding of the LG U+ EPG provider (epg2xml/providers/lg.py).

JSON leaf fields that the provider reads as strings are modelled as
`Option String` (`none` = key absent). A JSON object field whose value the
provider checks with `isinstance(..., list)` is modelled as `Option (JField α)`
where `JField.nonList b` stands for a present value of any non-list shape and
`b` for its Python truthiness. The top-level API response (`Any` in the code:
the code accepts `dict` or `list` and turns anything else into `None`) is
`Option ApiData`. Python dict truthiness (non-emptiness) is carried by the
modelled fields plus `hasOtherKeys` (true when the dict holds keys the
provider never reads). Python `str.strip` is modelled by `String.trim`
(ASCII whitespace, which is all the upstream data carries).
-/

/-- A JSON value sitting under a key the provider inspects with
`isinstance(..., list)`: either an actual array, or some other shape whose
only observable property is its Python truthiness. -/
inductive JField (α : Type) : Type where
  | jlist (xs : List α)
  | nonList (truthy : Bool)
  deriving DecidableEq

/-- One element of `brdGnreDtoList` when it is a JSON object. -/
structure RawGenre where
  urcBrdCntrTvChnlGnreCd : Option String
  urcBrdCntrTvChnlGnreNm : Option String
  deriving DecidableEq

/-- One element of `brdGnreDtoList` (the code skips non-dict elements). -/
inductive RawGenreEntry : Type where
  | jdict (g : RawGenre)
  | nondict
  deriving DecidableEq

/-- One element of `brdCntrTvChnlIDtoList` when it is a JSON object. -/
structure RawChannel where
  urcBrdCntrTvChnlId : Option String
  urcBrdCntrTvChnlNm : Option String
  urcBrdCntrTvChnlNo : Option String
  bgImgUrl : Option String
  urcBrdCntrTvChnlGnreCd : Option String
  deriving DecidableEq

/-- One element of `brdCntrTvChnlIDtoList` (the code skips non-dict elements). -/
inductive RawChannelEntry : Type where
  | jdict (x : RawChannel)
  | nondict
  deriving DecidableEq

/-- One element of `brdCntTvSchIDtoList` when it is a JSON object. -/
structure RawProgram where
  brdPgmTitNm : Option String
  brdPgmDscr : Option String
  brdCntrTvChnlBrdDt : Option String
  epgStrtTme : Option String
  brdWtchAgeGrdCd : Option String
  brdPgmRsolNm : Option String
  subtBrdYn : Option String
  explBrdYn : Option String
  silaBrdYn : Option String
  urcBrdCntrTvSchdGnreCd : Option String
  deriving DecidableEq

/-- One element of `brdCntTvSchIDtoList` (the code skips non-dict elements). -/
inductive RawProgramEntry : Type where
  | jdict (p : RawProgram)
  | nondict
  deriving DecidableEq

/-- The JSON object `_fetch_api_data` may return, restricted to the keys the
provider reads; `hasOtherKeys` records whether unread keys are present (that
only matters for the dict's Python truthiness). -/
structure ApiDict where
  brdGnreDtoList : Option (JField RawGenreEntry)
  brdCntrTvChnlIDtoList : Option (JField RawChannelEntry)
  brdCntTvSchIDtoList : Option (JField RawProgramEntry)
  hasOtherKeys : Bool
  deriving DecidableEq

/-- What `_fetch_api_data` returns when it does not return `None`: the
`isinstance(data, (dict, list))` check lets both dicts and arrays through.
The elements of a top-level array are never inspected, so they are `Unit`. -/
inductive ApiData : Type where
  | dict (d : ApiDict)
  | list (xs : List Unit)
  deriving DecidableEq

/-- Python truthiness of an optional string field: `None` and `""` are falsy. -/
def truthyStr : Option String → Bool
  | none => false
  | some s => decide (s ≠ "")

/-- Python truthiness of a dict (`if not data`): non-emptiness. -/
def truthyApiDict (d : ApiDict) : Bool :=
  d.brdGnreDtoList.isSome || d.brdCntrTvChnlIDtoList.isSome ||
    d.brdCntTvSchIDtoList.isSome || d.hasOtherKeys

/-- Python truthiness of `_fetch_api_data`'s non-None result. -/
def truthyApiData : ApiData → Bool
  | ApiData.dict d => truthyApiDict d
  | ApiData.list xs => decide (xs ≠ [])

/-- Python dict assignment `m[k] = v`: updates the value in place when the key
exists, appends otherwise (insertion order kept, as CPython dicts do). -/
def dictUpsert : List (String × String) → String → String → List (String × String)
  | [], k, v => [(k, v)]
  | (k0, v0) :: rest, k, v =>
    if k = k0 then (k0, v) :: rest else (k0, v0) :: dictUpsert rest k v

/-- Python dict lookup `m.get(k)` on an association list. -/
def dictFind {α : Type} : List (String × α) → String → Option α
  | [], _ => none
  | (k0, v0) :: rest, k => if k = k0 then some v0 else dictFind rest k

/-- Python dict lookup with default, `m.get(k, d)`. -/
def dictGetD {α : Type} (m : List (String × α)) (k : String) (d : α) : α :=
  (dictFind m k).getD d

/-- The rating table `G_CODE` of lg.py (age-rating code to minimum age). -/
def G_CODE : List (String × Nat) :=
  [("0", 0), ("1", 7), ("2", 12), ("3", 15), ("4", 19), ("", 0)]

/-- The programme-category table `P_CATE` of lg.py. -/
def P_CATE : List (String × String) :=
  [("00", "영화"), ("01", "스포츠/취미"), ("02", "만화"), ("03", "드라마"),
   ("04", "교양/다큐"), ("05", "스포츠/취미"), ("06", "교육"), ("07", "어린이"),
   ("08", "연예/오락"), ("09", "공연/음악"), ("10", "게임"), ("11", "다큐"),
   ("12", "뉴스/정보"), ("13", "라이프"), ("15", "홈쇼핑"), ("16", "경제/부동산"),
   ("31", "기타"), ("", "기타")]

/-- The per-instance state the provider mutates: `self.channel_genre_map` and
`self.genre_map_initialized`. -/
structure LGState where
  channel_genre_map : List (String × String)
  genre_map_ready : Bool
  deriving DecidableEq

/-- The fold over `brdGnreDtoList` building `temp_genre_map`: non-dict items
are skipped, and an item contributes only when both its code and its name keys
are present (the code tests `is not None`, not truthiness). -/
def genreMapOfList (items : List RawGenreEntry) : List (String × String) :=
  items.foldl
    (fun m it =>
      match it with
      | RawGenreEntry.nondict => m
      | RawGenreEntry.jdict g =>
        match g.urcBrdCntrTvChnlGnreCd, g.urcBrdCntrTvChnlGnreNm with
        | some c, some n => dictUpsert m c n
        | _, _ => m)
    []

/-- LG._initialize_channel_genre_map: returns at once when the map was already
built; otherwise builds `temp_genre_map` from `brdGnreDtoList` and installs it
only when non-empty (only then is the ready flag set). -/
def initChannelGenreMap (st : LGState) (apiData : ApiData) : LGState :=
  if st.genre_map_ready then st
  else
    match apiData with
    | ApiData.list _ => st
    | ApiData.dict d =>
      match d.brdGnreDtoList with
      | none => st
      | some (JField.nonList _) => st
      | some (JField.jlist items) =>
        let temp := genreMapOfList items
        if temp ≠ [] then { channel_genre_map := temp, genre_map_ready := true }
        else st

/-- A channel descriptor as `get_svc_channels` builds it (the constant
`"EPG": []` member is left out of the model). -/
structure ChannelObj where
  ServiceId : String
  Name : String
  No : String
  Icon_url : String
  Category : String
  deriving DecidableEq

/-- The body of the channel loop of `get_svc_channels` for one valid entry:
fields with `.get(key, "")` defaults, and the category policy of lines
159-163: a present code with a non-empty genre map takes
`channel_genre_map.get(code, "")`; a present code with an empty map takes the
placeholder; no code takes the empty string. -/
def channelObjOfRaw (m : List (String × String)) (x : RawChannel) : ChannelObj :=
  let code := x.urcBrdCntrTvChnlGnreCd.getD ""
  { ServiceId := x.urcBrdCntrTvChnlId.getD ""
    Name := x.urcBrdCntrTvChnlNm.getD ""
    No := x.urcBrdCntrTvChnlNo.getD ""
    Icon_url := x.bgImgUrl.getD ""
    Category :=
      if code ≠ "" ∧ m ≠ [] then dictGetD m code ""
      else if code ≠ "" then "장르코드:" ++ code
      else "" }

/-- Validity of a raw channel entry: a JSON object whose service id and name
are both present and truthy (lines 151-156 drop everything else). -/
def validRawChannelEntry : RawChannelEntry → Bool
  | RawChannelEntry.nondict => false
  | RawChannelEntry.jdict x =>
    truthyStr x.urcBrdCntrTvChnlId && truthyStr x.urcBrdCntrTvChnlNm

/-- The channel loop of `get_svc_channels`: skips non-dict entries and entries
missing id or name (`continue`), appends a descriptor for the rest. -/
def svcChannelsLoop (m : List (String × String)) : List RawChannelEntry → List ChannelObj
  | [] => []
  | RawChannelEntry.nondict :: rest => svcChannelsLoop m rest
  | RawChannelEntry.jdict x :: rest =>
    if truthyStr x.urcBrdCntrTvChnlId && truthyStr x.urcBrdCntrTvChnlNm then
      channelObjOfRaw m x :: svcChannelsLoop m rest
    else svcChannelsLoop m rest

/-- What one raw entry contributes to `get_svc_channels`'s output. -/
def channelEntryObj (m : List (String × String)) : RawChannelEntry → Option ChannelObj
  | RawChannelEntry.nondict => none
  | RawChannelEntry.jdict x =>
    if truthyStr x.urcBrdCntrTvChnlId && truthyStr x.urcBrdCntrTvChnlNm then
      some (channelObjOfRaw m x)
    else none

/-- The Python exceptions the embedded paths can raise: `'list' object has no
attribute 'get'` when a top-level array reaches `data.get(...)`. -/
inductive PyExc : Type where
  | attributeError
  deriving DecidableEq

/-- LG.get_svc_channels, with the already-fetched API response as input
(`none` models `_fetch_api_data` returning `None`). The returned state is the
provider state after the call; the `Except` is the returned list or the
exception that escapes.\
Flow of the source: `if not data: return []`; genre-map build on first use;
`raw_channel_list = data.get("brdCntrTvChnlIDtoList")` - which raises
`AttributeError` when `data` is a (non-empty, hence truthy) array; a non-list
field returns `[]`; else the channel loop runs. -/
def get_svc_channels (st : LGState) (data : Option ApiData) :
    LGState × Except PyExc (List ChannelObj) :=
  match data with
  | none => (st, Except.ok [])
  | some d =>
    if truthyApiData d = false then (st, Except.ok [])
    else
      let st1 := if st.genre_map_ready then st else initChannelGenreMap st d
      match d with
      | ApiData.list _ => (st1, Except.error PyExc.attributeError)
      | ApiData.dict dd =>
        match dd.brdCntrTvChnlIDtoList with
        | none => (st1, Except.ok [])
        | some (JField.nonList _) => (st1, Except.ok [])
        | some (JField.jlist items) =>
          (st1, Except.ok (svcChannelsLoop st1.channel_genre_map items))

/-- A parsed `datetime.strptime` result. -/
structure DateTime where
  year : Nat
  month : Nat
  day : Nat
  hour : Nat
  minute : Nat
  second : Nat
  deriving DecidableEq

/-- The value of a block of `n` leading digit characters, with the rest. -/
def takeDigits (n : Nat) (cs : List Char) : Option (Nat × List Char) :=
  let pre := cs.take n
  if pre.length = n ∧ pre.all Char.isDigit then
    some (pre.foldl (fun a c => a * 10 + (c.toNat - 48)) 0, cs.drop n)
  else none

/-- A regex alternative made of `n` digits whose value lies in `lo..hi` (the
two-digit alternatives of `%m`, `%d`, `%H` are exactly the 2-digit strings in
the value range with 00 allowed only where the range starts at 0). -/
def matchDigitAlt (n lo hi : Nat) (cs : List Char) : Option (Nat × List Char) :=
  match takeDigits n cs with
  | none => none
  | some (v, r) => if lo ≤ v ∧ v ≤ hi then some (v, r) else none

/-- The trailing `" [1-9]"` alternative of CPython's `%d` pattern: a literal
space then a non-zero digit. -/
def matchSpaceDigit (cs : List Char) : Option (Nat × List Char) :=
  match cs with
  | ' ' :: c :: r =>
    if '1' ≤ c ∧ c ≤ '9' then some (c.toNat - 48, r) else none
  | _ => none

/-- CPython's `%m` alternatives in order: `1[0-2]|0[1-9]` then `[1-9]`. -/
def monthAlts : List (List Char → Option (Nat × List Char)) :=
  [matchDigitAlt 2 1 12, matchDigitAlt 1 1 9]

/-- CPython's `%d` alternatives in order: `3[0-1]|[1-2]\d|0[1-9]`, then
`[1-9]`, then `" [1-9]"`. -/
def dayAlts : List (List Char → Option (Nat × List Char)) :=
  [matchDigitAlt 2 1 31, matchDigitAlt 1 1 9, matchSpaceDigit]

/-- CPython's `%H` alternatives in order: `2[0-3]|[0-1]\d` then `\d`. -/
def hourAlts : List (List Char → Option (Nat × List Char)) :=
  [matchDigitAlt 2 0 23, matchDigitAlt 1 0 9]

/-- The first alternative that succeeds, in order. -/
def firstSome {α : Type} : List (Option α) → Option α
  | [] => none
  | some a :: _ => some a
  | none :: rest => firstSome rest

/-- Regex backtracking over the block between the year and the first colon:
depth-first over the month, day and hour alternatives in preference order,
accepting the first combination that consumes the whole block. -/
def parseMDH (cs : List Char) : Option (Nat × Nat × Nat) :=
  firstSome <| monthAlts.map fun am =>
    match am cs with
    | none => none
    | some (m, r1) =>
      firstSome <| dayAlts.map fun ad =>
        match ad r1 with
        | none => none
        | some (d, r2) =>
          firstSome <| hourAlts.map fun ah =>
            match ah r2 with
            | none => none
            | some (h, r3) => if r3 = [] then some (m, d, h) else none

/-- CPython's `%M` (`[0-5]\d|\d`) applied to a whole between-colon block. -/
def parseMinuteTok (cs : List Char) : Option Nat :=
  match takeDigits cs.length cs with
  | none => none
  | some (v, _) =>
    if (cs.length = 2 ∧ v ≤ 59) ∨ cs.length = 1 then some v else none

/-- CPython's `%S` (`6[0-1]|[0-5]\d|\d`): 60 and 61 match the regex but are
rejected later by the `datetime` constructor. -/
def parseSecondTok (cs : List Char) : Option Nat :=
  match takeDigits cs.length cs with
  | none => none
  | some (v, _) =>
    if (cs.length = 2 ∧ v ≤ 61) ∨ cs.length = 1 then some v else none

/-- Splits at the first colon; `none` when there is no colon. -/
def splitFirstColon : List Char → Option (List Char × List Char)
  | [] => none
  | c :: rest =>
    if c = ':' then some ([], rest)
    else
      match splitFirstColon rest with
      | none => none
      | some (a, b) => some (c :: a, b)

/-- Gregorian leap year, as `datetime` uses it. -/
def isLeapYear (y : Nat) : Bool :=
  y % 4 = 0 && (y % 100 ≠ 0 || y % 400 = 0)

/-- Days in a month, as the `datetime` constructor validates them. -/
def daysInMonth (y m : Nat) : Nat :=
  if m = 2 then (if isLeapYear y then 29 else 28)
  else if m = 4 ∨ m = 6 ∨ m = 9 ∨ m = 11 then 30
  else 31

/-- Model of `datetime.strptime(s, "%Y%m%d%H:%M:%S")`, `None` for the
`ValueError` the code catches. The format's literal colons force the string
into three blocks: the year's four digits plus the month/day/hour tokens, the
minute token, the second token; the `datetime` constructor then rejects year
0, impossible days-of-month and the leap seconds the `%S` regex admits. -/
def strptimeYmdHMS (s : String) : Option DateTime :=
  match splitFirstColon s.data with
  | none => none
  | some (p1, rest1) =>
    match splitFirstColon rest1 with
    | none => none
    | some (p2, p3) =>
      match takeDigits 4 p1 with
      | none => none
      | some (y, mdh) =>
        match parseMDH mdh, parseMinuteTok p2, parseSecondTok p3 with
        | some (mo, d, h), some mi, some sec =>
          if 1 ≤ y ∧ d ≤ daysInMonth y mo ∧ sec ≤ 59 then
            some { year := y, month := mo, day := d, hour := h, minute := mi, second := sec }
          else none
        | _, _, _ => none

/-- A programme record as `__epgs_of_day` emits it (an emitted record always
carries a parsed start time, since entries without one are dropped). -/
structure EPGProgram where
  channelid : String
  title : String
  desc : Option String
  stime : DateTime
  rating : Nat
  extras : Option String
  categories : Option (List String)
  deriving DecidableEq

/-- The `extras_list` built for one raw programme: the resolution label when
truthy, then fixed tags for each presence flag that equals exactly "Y". -/
def extrasListOf (p : RawProgram) : List String :=
  (if truthyStr p.brdPgmRsolNm then [p.brdPgmRsolNm.getD ""] else [])
    ++ (if p.subtBrdYn = some "Y" then ["자막"] else [])
    ++ (if p.explBrdYn = some "Y" then ["화면해설"] else [])
    ++ (if p.silaBrdYn = some "Y" then ["수화"] else [])

/-- The `_epg.categories` assignment: a present code found in `P_CATE` gives
the mapped name (when that name is truthy); a present unknown code gives the
placeholder; a blank code leaves the field unset. -/
def categoriesOf (p : RawProgram) : Option (List String) :=
  let code := p.urcBrdCntrTvSchdGnreCd.getD ""
  if code ≠ "" then
    match dictFind P_CATE code with
    | some nm => if nm ≠ "" then some [nm] else none
    | none => some ["코드:" ++ code]
  else none

/-- The record `__epgs_of_day` builds for one entry whose start time parsed. -/
def epgRecordOf (channelid : String) (p : RawProgram) (stime : DateTime) : EPGProgram :=
  { channelid := channelid
    title :=
      let t := (p.brdPgmTitNm.getD "").trim
      if t = "" then "제목 없음" else t
    desc :=
      let d := (p.brdPgmDscr.getD "").trim
      if d = "" then none else some d
    stime := stime
    rating := dictGetD G_CODE (p.brdWtchAgeGrdCd.getD "") 0
    extras :=
      let l := extrasListOf p
      if l = [] then none else some (String.intercalate " " l)
    categories := categoriesOf p }

/-- One iteration of the `__epgs_of_day` loop on a JSON-object entry: `none`
when the date or time field is missing/falsy or their concatenation fails to
parse (`continue`), the normalized record otherwise. -/
def epgOfEntry (channelid : String) (p : RawProgram) : Option EPGProgram :=
  if truthyStr p.brdCntrTvChnlBrdDt && truthyStr p.epgStrtTme then
    match strptimeYmdHMS (p.brdCntrTvChnlBrdDt.getD "" ++ p.epgStrtTme.getD "") with
    | none => none
    | some st => some (epgRecordOf channelid p st)
  else none

/-- What one element of the programme list contributes (non-dict entries are
skipped). -/
def progEntryEpg (cid : String) : RawProgramEntry → Option EPGProgram
  | RawProgramEntry.nondict => none
  | RawProgramEntry.jdict p => epgOfEntry cid p

/-- LG.__epgs_of_day's loop over the raw programme list. -/
def epgs_of_day (cid : String) : List RawProgramEntry → List EPGProgram
  | [] => []
  | RawProgramEntry.nondict :: rest => epgs_of_day cid rest
  | RawProgramEntry.jdict p :: rest =>
    match epgOfEntry cid p with
    | none => epgs_of_day cid rest
    | some r => r :: epgs_of_day cid rest

/-- The channel object the host hands to `get_programs`. -/
structure EPGChannel where
  id : String
  name : String
  svcid : Option String
  programs : List EPGProgram
  deriving DecidableEq

/-- Python's `s.split('.')[0]`: the characters before the first dot. -/
def untilDot (s : String) : String :=
  String.mk (s.data.takeWhile fun c => c ≠ '.')

/-- The tail of `get_programs` once the API channel id is known: fetch, the
`if not data or not data.get("brdCntTvSchIDtoList")` return (which raises on a
non-empty array response), the `isinstance(..., list)` return, then
`channel.programs.extend(self.__epgs_of_day(...))`. The batch-level
`try/except` of the source is unreachable in the typed model, since the
embedded normalizer is total. -/
def getProgramsWith (fetch : String → Option ApiData) (apiId : String)
    (channel : EPGChannel) : EPGChannel × Option PyExc :=
  match fetch apiId with
  | none => (channel, none)
  | some d =>
    if truthyApiData d = false then (channel, none)
    else
      match d with
      | ApiData.list _ => (channel, some PyExc.attributeError)
      | ApiData.dict dd =>
        match dd.brdCntTvSchIDtoList with
        | none => (channel, none)
        | some (JField.nonList _) => (channel, none)
        | some (JField.jlist xs) =>
          if xs = [] then (channel, none)
          else
            ({ channel with programs := channel.programs ++ epgs_of_day channel.id xs },
              none)

/-- LG.get_programs for one (channel, day): `fetch` stands for
`_fetch_api_data` keyed by the `CHNL_ID` parameter (the day being fixed).
The API channel id is `channel.svcid` when truthy, else the part of the
xmltv id `channel.id` before the first dot; when that is also empty the call
returns with nothing appended. -/
def get_programs (fetch : String → Option ApiData) (channel : EPGChannel) :
    EPGChannel × Option PyExc :=
  if truthyStr channel.svcid then
    getProgramsWith fetch (channel.svcid.getD "") channel
  else if untilDot channel.id = "" then (channel, none)
  else getProgramsWith fetch (untilDot channel.id) channel

/-! ## Helper lemmas -/

theorem initChannelGenreMap_ready (st : LGState) (d : ApiData)
    (h : st.genre_map_ready = true) : initChannelGenreMap st d = st := by
  unfold initChannelGenreMap
  simp [h]

theorem svcChannelsLoop_eq_filterMap (m : List (String × String))
    (items : List RawChannelEntry) :
    svcChannelsLoop m items = items.filterMap (channelEntryObj m) := by
  induction items with
  | nil => rfl
  | cons e rest ih =>
    cases e with
    | nondict => simp [svcChannelsLoop, channelEntryObj, List.filterMap_cons, ih]
    | jdict x =>
      by_cases hv : (truthyStr x.urcBrdCntrTvChnlId && truthyStr x.urcBrdCntrTvChnlNm) = true
      · simp [svcChannelsLoop, channelEntryObj, List.filterMap_cons, hv, ih]
      · simp [svcChannelsLoop, channelEntryObj, List.filterMap_cons, hv, ih]

theorem channelEntryObj_length (m : List (String × String))
    (items : List RawChannelEntry) :
    (items.filterMap (channelEntryObj m)).length
      = (items.filter validRawChannelEntry).length := by
  induction items with
  | nil => rfl
  | cons e rest ih =>
    cases e with
    | nondict =>
      simp [channelEntryObj, validRawChannelEntry, List.filterMap_cons, List.filter_cons, ih]
    | jdict x =>
      by_cases hv : (truthyStr x.urcBrdCntrTvChnlId && truthyStr x.urcBrdCntrTvChnlNm) = true
      · simp [channelEntryObj, validRawChannelEntry, List.filterMap_cons, List.filter_cons, hv, ih]
      · simp [channelEntryObj, validRawChannelEntry, List.filterMap_cons, List.filter_cons, hv, ih]

theorem dictFind_mem {α : Type} (m : List (String × α)) (k : String) (v : α)
    (h : dictFind m k = some v) : (k, v) ∈ m := by
  induction m with
  | nil => simp [dictFind] at h
  | cons kv rest ih =>
    obtain ⟨k0, v0⟩ := kv
    simp only [dictFind] at h
    by_cases hk : k = k0
    · rw [if_pos hk] at h
      injection h with h
      subst hk
      subst h
      exact List.mem_cons_self _ _
    · rw [if_neg hk] at h
      exact List.mem_cons_of_mem _ (ih h)

theorem epgOfEntry_eq_some (cid : String) (p : RawProgram) (r : EPGProgram)
    (h : epgOfEntry cid p = some r) :
    ∃ st, strptimeYmdHMS (p.brdCntrTvChnlBrdDt.getD "" ++ p.epgStrtTme.getD "") = some st ∧
      r = epgRecordOf cid p st := by
  unfold epgOfEntry at h
  split at h
  · cases hs : strptimeYmdHMS (p.brdCntrTvChnlBrdDt.getD "" ++ p.epgStrtTme.getD "") with
    | none => rw [hs] at h; simp at h
    | some st =>
      rw [hs] at h
      simp only [Option.some.injEq] at h
      exact ⟨st, rfl, h.symm⟩
  · simp at h

/-! ## Claim C5 -/

/-- C5: genre-lookup initialization is idempotent after the first successful
build: once the ready flag is set by a call, any further initializer call,
with any input, returns the state of the first call unchanged. -/
theorem c5_genre_map_idempotent (st : LGState) (d1 d2 : ApiData)
    (h : (initChannelGenreMap st d1).genre_map_ready = true) :
    initChannelGenreMap (initChannelGenreMap st d1) d2 = initChannelGenreMap st d1 :=
  initChannelGenreMap_ready _ _ h

def c5St : LGState := { channel_genre_map := [], genre_map_ready := false }

def c5D1 : ApiData :=
  ApiData.dict
    { brdGnreDtoList := some (JField.jlist [RawGenreEntry.jdict
        { urcBrdCntrTvChnlGnreCd := some "01", urcBrdCntrTvChnlGnreNm := some "뉴스" }])
      brdCntrTvChnlIDtoList := none
      brdCntTvSchIDtoList := none
      hasOtherKeys := false }

def c5D2 : ApiData :=
  ApiData.dict
    { brdGnreDtoList := some (JField.jlist [RawGenreEntry.jdict
        { urcBrdCntrTvChnlGnreCd := some "02", urcBrdCntrTvChnlGnreNm := some "영화" }])
      brdCntrTvChnlIDtoList := none
      brdCntTvSchIDtoList := none
      hasOtherKeys := true }

/-- C5 witness: a first successful build from one response, then a second call
with a different input, leaves the state of the first call unchanged. -/
theorem c5_genre_map_idempotent_witness :
    initChannelGenreMap (initChannelGenreMap c5St c5D1) c5D2 = initChannelGenreMap c5St c5D1 :=
  c5_genre_map_idempotent c5St c5D1 c5D2 (by decide)

/-! ## Claim C2 -/

def c2Channel : EPGChannel := { id := "S1.lg", name := "CH", svcid := some "S1", programs := [] }

/-- C2 (code bug evidence): when the upstream response is a non-empty JSON
array - which `_fetch_api_data` deliberately lets through - the subsequent
`data.get(...)` raises AttributeError past both `get_svc_channels` and
`get_programs`, contradicting the never-raises propagation policy. -/
theorem c2_list_response_raises :
    (get_svc_channels { channel_genre_map := [], genre_map_ready := false }
        (some (ApiData.list [Unit.unit]))).2 = Except.error PyExc.attributeError
    ∧ (get_programs (fun _ => some (ApiData.list [Unit.unit])) c2Channel).2 =
        some PyExc.attributeError := by
  exact ⟨rfl, rfl⟩

/-! ## Claim C1 -/

/-- C1 (amended): for every raw channel entry kept by the channel loop, the
category is: the resolved name when a genre code is present and resolves in
the (non-empty) lookup; the empty string when a code is present but
unrecognized while the lookup is non-empty; the placeholder embedding the
code when a code is present but the lookup is empty; the empty string when no
code is present. -/
theorem c1_category_policy (m : List (String × String)) (x : RawChannel)
    (_hs : truthyStr x.urcBrdCntrTvChnlId = true)
    (_hn : truthyStr x.urcBrdCntrTvChnlNm = true) :
    (x.urcBrdCntrTvChnlGnreCd.getD "" ≠ "" →
      ∀ nm, dictFind m (x.urcBrdCntrTvChnlGnreCd.getD "") = some nm →
        (channelObjOfRaw m x).Category = nm)
    ∧ (x.urcBrdCntrTvChnlGnreCd.getD "" ≠ "" → m ≠ [] →
        dictFind m (x.urcBrdCntrTvChnlGnreCd.getD "") = none →
        (channelObjOfRaw m x).Category = "")
    ∧ (x.urcBrdCntrTvChnlGnreCd.getD "" ≠ "" → m = [] →
        (channelObjOfRaw m x).Category = "장르코드:" ++ x.urcBrdCntrTvChnlGnreCd.getD "")
    ∧ (x.urcBrdCntrTvChnlGnreCd.getD "" = "" → (channelObjOfRaw m x).Category = "") := by
  refine ⟨?_, ?_, ?_, ?_⟩
  · intro hc nm hf
    have hm : m ≠ [] := by
      rintro rfl
      simp [dictFind] at hf
    simp [channelObjOfRaw, hc, hm, dictGetD, hf]
  · intro hc hm hf
    simp [channelObjOfRaw, hc, hm, dictGetD, hf]
  · intro hc hm
    simp [channelObjOfRaw, hc, hm]
  · intro hc
    simp [channelObjOfRaw, hc]

def c1Map : List (String × String) := [("01", "뉴스")]

def c1Chan : RawChannel :=
  { urcBrdCntrTvChnlId := some "S1"
    urcBrdCntrTvChnlNm := some "CH"
    urcBrdCntrTvChnlNo := some "5"
    bgImgUrl := none
    urcBrdCntrTvChnlGnreCd := some "01" }

/-- C1 witness: the amended policy at a concrete valid entry and lookup. -/
theorem c1_category_policy_witness :
    (c1Chan.urcBrdCntrTvChnlGnreCd.getD "" ≠ "" →
      ∀ nm, dictFind c1Map (c1Chan.urcBrdCntrTvChnlGnreCd.getD "") = some nm →
        (channelObjOfRaw c1Map c1Chan).Category = nm)
    ∧ (c1Chan.urcBrdCntrTvChnlGnreCd.getD "" ≠ "" → c1Map ≠ [] →
        dictFind c1Map (c1Chan.urcBrdCntrTvChnlGnreCd.getD "") = none →
        (channelObjOfRaw c1Map c1Chan).Category = "")
    ∧ (c1Chan.urcBrdCntrTvChnlGnreCd.getD "" ≠ "" → c1Map = [] →
        (channelObjOfRaw c1Map c1Chan).Category = "장르코드:" ++ c1Chan.urcBrdCntrTvChnlGnreCd.getD "")
    ∧ (c1Chan.urcBrdCntrTvChnlGnreCd.getD "" = "" → (channelObjOfRaw c1Map c1Chan).Category = "") :=
  c1_category_policy c1Map c1Chan (by decide) (by decide)

def c1Data : ApiData :=
  ApiData.dict
    { brdGnreDtoList := some (JField.jlist [RawGenreEntry.jdict
        { urcBrdCntrTvChnlGnreCd := some "01", urcBrdCntrTvChnlGnreNm := some "뉴스" }])
      brdCntrTvChnlIDtoList := some (JField.jlist [RawChannelEntry.jdict
        { urcBrdCntrTvChnlId := some "S1"
          urcBrdCntrTvChnlNm := some "CH"
          urcBrdCntrTvChnlNo := some "5"
          bgImgUrl := none
          urcBrdCntrTvChnlGnreCd := some "ZZ" }])
      brdCntTvSchIDtoList := none
      hasOtherKeys := false }

/-- The descriptor the code emits for the entry of `c1Data`. -/
def c1Emitted : ChannelObj :=
  { ServiceId := "S1", Name := "CH", No := "5", Icon_url := "", Category := "" }

/-- C1 counterexample: a channel whose genre code "ZZ" is present but absent
from the (non-empty) genre lookup built from the same response: the emitted
category is the empty string, not a placeholder embedding the raw code, so
the three-way policy of the claim does not hold on the code. -/
theorem c1_counterexample :
    (get_svc_channels { channel_genre_map := [], genre_map_ready := false } (some c1Data)).2 =
      Except.ok [c1Emitted]
    ∧ c1Emitted.Category ≠ "장르코드:" ++ "ZZ" := by
  exact ⟨rfl, by decide⟩

/-! ## Claim C3 -/

/-- C3: over a channel-list response, exactly the entries with a truthy
service id and name are kept (never defaulted), in input order, and the
output count equals the count of valid entries. -/
theorem c3_valid_entries_kept (st : LGState) (d : ApiDict) (items : List RawChannelEntry)
    (hl : d.brdCntrTvChnlIDtoList = some (JField.jlist items)) :
    (get_svc_channels st (some (ApiData.dict d))).2 =
      Except.ok (items.filterMap (channelEntryObj
        ((get_svc_channels st (some (ApiData.dict d))).1).channel_genre_map))
    ∧ (items.filterMap (channelEntryObj
        ((get_svc_channels st (some (ApiData.dict d))).1).channel_genre_map)).length
      = (items.filter validRawChannelEntry).length := by
  have ht : truthyApiData (ApiData.dict d) = true := by
    simp [truthyApiData, truthyApiDict, hl]
  refine ⟨?_, channelEntryObj_length _ _⟩
  simp [get_svc_channels, ht, hl, svcChannelsLoop_eq_filterMap]

def c3St : LGState := { channel_genre_map := [], genre_map_ready := false }

def c3ItemA : RawChannelEntry :=
  RawChannelEntry.jdict
    { urcBrdCntrTvChnlId := some "A1"
      urcBrdCntrTvChnlNm := some "Alpha"
      urcBrdCntrTvChnlNo := some "1"
      bgImgUrl := some "http://a"
      urcBrdCntrTvChnlGnreCd := none }

def c3ItemB : RawChannelEntry :=
  RawChannelEntry.jdict
    { urcBrdCntrTvChnlId := some "B2"
      urcBrdCntrTvChnlNm := none
      urcBrdCntrTvChnlNo := some "2"
      bgImgUrl := none
      urcBrdCntrTvChnlGnreCd := none }

def c3ItemC : RawChannelEntry :=
  RawChannelEntry.jdict
    { urcBrdCntrTvChnlId := some "C3"
      urcBrdCntrTvChnlNm := some "Gamma"
      urcBrdCntrTvChnlNo := some "3"
      bgImgUrl := none
      urcBrdCntrTvChnlGnreCd := none }

def c3Dict : ApiDict :=
  { brdGnreDtoList := none
    brdCntrTvChnlIDtoList := some (JField.jlist [c3ItemA, c3ItemB, c3ItemC])
    brdCntTvSchIDtoList := none
    hasOtherKeys := false }

/-- C3 witness: two valid entries and one missing its name give exactly the
two valid descriptors in input order. -/
theorem c3_valid_entries_kept_witness :
    (get_svc_channels c3St (some (ApiData.dict c3Dict))).2 =
      Except.ok ([c3ItemA, c3ItemB, c3ItemC].filterMap (channelEntryObj
        ((get_svc_channels c3St (some (ApiData.dict c3Dict))).1).channel_genre_map))
    ∧ ([c3ItemA, c3ItemB, c3ItemC].filterMap (channelEntryObj
        ((get_svc_channels c3St (some (ApiData.dict c3Dict))).1).channel_genre_map)).length
      = ([c3ItemA, c3ItemB, c3ItemC].filter validRawChannelEntry).length :=
  c3_valid_entries_kept c3St c3Dict [c3ItemA, c3ItemB, c3ItemC] rfl

/-! ## Claim C4 -/

def c4Entry (dt tm : String) : RawProgramEntry :=
  RawProgramEntry.jdict
    { brdPgmTitNm := some "T"
      brdPgmDscr := none
      brdCntrTvChnlBrdDt := some dt
      epgStrtTme := some tm
      brdWtchAgeGrdCd := some "1"
      brdPgmRsolNm := none
      subtBrdYn := none
      explBrdYn := none
      silaBrdYn := none
      urcBrdCntrTvSchdGnreCd := some "03" }

/-- Ten schedule entries, one of which (the fourth) has an unparsable start
time. -/
def c4Batch : List RawProgramEntry :=
  [c4Entry "20240101" "06:00:00", c4Entry "20240101" "07:00:00",
   c4Entry "20240101" "08:00:00", c4Entry "20240101" "99:99:99",
   c4Entry "20240101" "09:00:00", c4Entry "20240101" "10:00:00",
   c4Entry "20240101" "11:00:00", c4Entry "20240101" "12:00:00",
   c4Entry "20240101" "13:00:00", c4Entry "20240101" "14:00:00"]

/-- C4: an entry whose date and time fields are present (truthy) and whose
concatenation parses gets exactly the parsed timestamp as start time; an
entry missing either field or failing to parse is dropped alone, leaving the
rest of the batch intact; concretely, one malformed entry in a batch of ten
yields exactly nine records. -/
theorem c4_start_time_and_skip :
    (∀ cid p dt, truthyStr p.brdCntrTvChnlBrdDt = true → truthyStr p.epgStrtTme = true →
        strptimeYmdHMS (p.brdCntrTvChnlBrdDt.getD "" ++ p.epgStrtTme.getD "") = some dt →
        ∃ r, epgOfEntry cid p = some r ∧ r.stime = dt)
    ∧ (∀ cid p, truthyStr p.brdCntrTvChnlBrdDt = false ∨ truthyStr p.epgStrtTme = false ∨
        strptimeYmdHMS (p.brdCntrTvChnlBrdDt.getD "" ++ p.epgStrtTme.getD "") = none →
        epgOfEntry cid p = none)
    ∧ (∀ cid e xs ys, progEntryEpg cid e = none →
        epgs_of_day cid (xs ++ e :: ys) = epgs_of_day cid (xs ++ ys))
    ∧ (epgs_of_day "CH" c4Batch).length = 9 := by
  refine ⟨?_, ?_, ?_, by rfl⟩
  · intro cid p dt h1 h2 h3
    refine ⟨epgRecordOf cid p dt, ?_, rfl⟩
    unfold epgOfEntry
    rw [h1, h2]
    simp [h3]
  · intro cid p h
    rcases h with h | h | h
    · simp [epgOfEntry, h]
    · simp [epgOfEntry, h]
    · by_cases hc : (truthyStr p.brdCntrTvChnlBrdDt && truthyStr p.epgStrtTme) = true
      · simp [epgOfEntry, hc, h]
      · simp [epgOfEntry, hc]
  · intro cid e xs ys he
    induction xs with
    | nil =>
      cases e with
      | nondict => simp [epgs_of_day]
      | jdict p =>
        simp only [progEntryEpg] at he
        simp [epgs_of_day, he]
    | cons e0 rest ih =>
      cases e0 with
      | nondict => simp [epgs_of_day, ih]
      | jdict p0 =>
        cases hp : epgOfEntry cid p0 with
        | none => simp [epgs_of_day, hp, ih]
        | some r => simp [epgs_of_day, hp, ih]

def c4GoodEntry : RawProgram :=
  { brdPgmTitNm := some "T"
    brdPgmDscr := none
    brdCntrTvChnlBrdDt := some "20240101"
    epgStrtTme := some "08:30:00"
    brdWtchAgeGrdCd := some "1"
    brdPgmRsolNm := none
    subtBrdYn := none
    explBrdYn := none
    silaBrdYn := none
    urcBrdCntrTvSchdGnreCd := some "03" }

/-- C4 witness: the parse branch at a concrete entry. -/
theorem c4_start_time_and_skip_witness :
    ∃ r, epgOfEntry "CH" c4GoodEntry = some r
      ∧ r.stime = { year := 2024, month := 1, day := 1, hour := 8, minute := 30, second := 0 } :=
  c4_start_time_and_skip.1 "CH" c4GoodEntry
    { year := 2024, month := 1, day := 1, hour := 8, minute := 30, second := 0 }
    (by decide) (by decide) (by decide)

/-! ## Claims C6, C7, C8: field derivation of emitted records -/

theorem emitted_extras (cid : String) (p : RawProgram) (r : EPGProgram)
    (h : epgOfEntry cid p = some r) :
    r.extras = (if extrasListOf p = [] then none
      else some (String.intercalate " " (extrasListOf p))) := by
  obtain ⟨st, hs, rfl⟩ := epgOfEntry_eq_some cid p r h
  simp [epgRecordOf]

theorem emitted_categories (cid : String) (p : RawProgram) (r : EPGProgram)
    (h : epgOfEntry cid p = some r) : r.categories = categoriesOf p := by
  obtain ⟨st, hs, rfl⟩ := epgOfEntry_eq_some cid p r h
  simp [epgRecordOf]

theorem emitted_rating (cid : String) (p : RawProgram) (r : EPGProgram)
    (h : epgOfEntry cid p = some r) :
    r.rating = dictGetD G_CODE (p.brdWtchAgeGrdCd.getD "") 0 := by
  obtain ⟨st, hs, rfl⟩ := epgOfEntry_eq_some cid p r h
  simp [epgRecordOf]

def c6Entry : RawProgram :=
  { brdPgmTitNm := some "T"
    brdPgmDscr := none
    brdCntrTvChnlBrdDt := some "20240101"
    epgStrtTme := some "08:00:00"
    brdWtchAgeGrdCd := some "1"
    brdPgmRsolNm := some "1080p"
    subtBrdYn := some "Y"
    explBrdYn := some "N"
    silaBrdYn := some "Y"
    urcBrdCntrTvSchdGnreCd := some "03" }

/-- C6: for every emitted record, extras is the single-space join of, in this
fixed order, the resolution label (when present and non-empty), then the
subtitle, audio-description and sign-language tags (each exactly when its
flag equals "Y"), and the field is absent when no component is present; the
spec's concrete flag set yields exactly "1080p 자막 수화". -/
theorem c6_extras_deterministic :
    (∀ cid p r, epgOfEntry cid p = some r →
        r.extras =
          (if ((if truthyStr p.brdPgmRsolNm then [p.brdPgmRsolNm.getD ""] else [])
              ++ (if p.subtBrdYn = some "Y" then ["자막"] else [])
              ++ (if p.explBrdYn = some "Y" then ["화면해설"] else [])
              ++ (if p.silaBrdYn = some "Y" then ["수화"] else [])) = [] then none
           else some (String.intercalate " "
             ((if truthyStr p.brdPgmRsolNm then [p.brdPgmRsolNm.getD ""] else [])
              ++ (if p.subtBrdYn = some "Y" then ["자막"] else [])
              ++ (if p.explBrdYn = some "Y" then ["화면해설"] else [])
              ++ (if p.silaBrdYn = some "Y" then ["수화"] else [])))))
    ∧ (∀ cid p r, epgOfEntry cid p = some r →
        p.brdPgmRsolNm = some "1080p" → p.subtBrdYn = some "Y" →
        p.explBrdYn = some "N" → p.silaBrdYn = some "Y" →
        r.extras = some "1080p 자막 수화")
    ∧ Option.map EPGProgram.extras (epgOfEntry "CH" c6Entry) = some (some "1080p 자막 수화") := by
  refine ⟨?_, ?_, by rfl⟩
  · intro cid p r h
    rw [emitted_extras cid p r h]
    rfl
  · intro cid p r h h1 h2 h3 h4
    rw [emitted_extras cid p r h]
    simp only [extrasListOf, h1, h2, h3, h4, truthyStr]
    decide

theorem P_CATE_value_nonempty (k v : String) (h : dictFind P_CATE k = some v) :
    v ≠ "" := by
  have hm := dictFind_mem P_CATE k v h
  unfold P_CATE at hm
  fin_cases hm <;> decide

/-- C7: for every emitted record, the programme category resolves as: a
non-blank code found in the fixed table gives the single mapped name, a
non-blank code absent from the table gives the single placeholder entry, and
a blank code leaves the field entirely absent; in particular "03" maps to
"드라마" and "99" is absent from the table. -/
theorem c7_program_category_policy :
    (∀ cid p r nm, epgOfEntry cid p = some r →
        p.urcBrdCntrTvSchdGnreCd.getD "" ≠ "" →
        dictFind P_CATE (p.urcBrdCntrTvSchdGnreCd.getD "") = some nm →
        r.categories = some [nm])
    ∧ (∀ cid p r, epgOfEntry cid p = some r →
        p.urcBrdCntrTvSchdGnreCd.getD "" ≠ "" →
        dictFind P_CATE (p.urcBrdCntrTvSchdGnreCd.getD "") = none →
        r.categories = some ["코드:" ++ p.urcBrdCntrTvSchdGnreCd.getD ""])
    ∧ (∀ cid p r, epgOfEntry cid p = some r →
        p.urcBrdCntrTvSchdGnreCd.getD "" = "" → r.categories = none)
    ∧ dictFind P_CATE "03" = some "드라마"
    ∧ dictFind P_CATE "99" = none := by
  refine ⟨?_, ?_, ?_, by rfl, by rfl⟩
  · intro cid p r nm h hc hf
    rw [emitted_categories cid p r h]
    have hne := P_CATE_value_nonempty _ _ hf
    simp [categoriesOf, hc, hf, hne]
  · intro cid p r h hc hf
    rw [emitted_categories cid p r h]
    simp [categoriesOf, hc, hf]
  · intro cid p r h hc
    rw [emitted_categories cid p r h]
    simp [categoriesOf, hc]

/-- C8: the rating mapping is total: "0","1","2","3","4","" map to
0,7,12,15,19,0 and every other string defaults to 0; every emitted record's
rating is that lookup applied to its (possibly missing, hence "") code. -/
theorem c8_rating_total :
    (∀ s : String, dictGetD G_CODE s 0 =
        if s = "0" then 0 else if s = "1" then 7 else if s = "2" then 12
        else if s = "3" then 15 else if s = "4" then 19 else 0)
    ∧ (∀ cid p r, epgOfEntry cid p = some r →
        r.rating = dictGetD G_CODE (p.brdWtchAgeGrdCd.getD "") 0)
    ∧ (∀ cid p r, epgOfEntry cid p = some r → p.brdWtchAgeGrdCd = none →
        r.rating = 0) := by
  refine ⟨?_, fun cid p r h => emitted_rating cid p r h, ?_⟩
  · intro s
    simp only [dictGetD, dictFind, G_CODE]
    split_ifs <;> simp
  · intro cid p r h hn
    rw [emitted_rating cid p r h, hn]
    rfl

/-! ## Claim C9 -/

/-- What one `get_programs` call appends for a given API channel id: the
day's records exactly when the fetch succeeds with a truthy dict whose
programme-list field is a non-empty array, nothing otherwise. -/
def gpwAppendList (fetch : String → Option ApiData) (apiId : String) (cid : String) :
    List EPGProgram :=
  match fetch apiId with
  | some (ApiData.dict dd) =>
    match dd.brdCntTvSchIDtoList with
    | some (JField.jlist xs) => if xs = [] then [] else epgs_of_day cid xs
    | _ => []
  | _ => []

theorem getProgramsWith_state (fetch : String → Option ApiData) (apiId : String)
    (ch : EPGChannel) :
    (getProgramsWith fetch apiId ch).1 =
      { ch with programs := ch.programs ++ gpwAppendList fetch apiId ch.id } := by
  unfold getProgramsWith gpwAppendList
  cases hf : fetch apiId with
  | none => simp
  | some d =>
    cases d with
    | list xs => by_cases hx : truthyApiData (ApiData.list xs) = false <;> simp [hx]
    | dict dd =>
      by_cases htr : truthyApiDict dd = false
      · have hnone : dd.brdCntTvSchIDtoList = none := by
          simp [truthyApiDict] at htr
          exact htr.1.2
        simp [truthyApiData, htr, hnone]
      · cases hl : dd.brdCntTvSchIDtoList with
        | none => simp [truthyApiData, htr, hl]
        | some f =>
          cases f with
          | nonList b => simp [truthyApiData, htr, hl]
          | jlist xs =>
            by_cases hx : xs = []
            · simp [truthyApiData, htr, hl, hx]
            · simp [truthyApiData, htr, hl, hx]

/-- What one `get_programs` call appends, as a function of the channel's
svcid and xmltv id only. -/
def gpAppendList (fetch : String → Option ApiData) (svcid : Option String) (cid : String) :
    List EPGProgram :=
  if truthyStr svcid then gpwAppendList fetch (svcid.getD "") cid
  else if untilDot cid = "" then []
  else gpwAppendList fetch (untilDot cid) cid

theorem get_programs_state (fetch : String → Option ApiData) (ch : EPGChannel) :
    (get_programs fetch ch).1 =
      { ch with programs := ch.programs ++ gpAppendList fetch ch.svcid ch.id } := by
  unfold get_programs gpAppendList
  by_cases h1 : truthyStr ch.svcid = true
  · simp [h1, getProgramsWith_state]
  · by_cases h2 : untilDot ch.id = ""
    · simp [h1, h2]
    · simp [h1, h2, getProgramsWith_state]

/-- C9: `get_programs` only ever appends: the prior programme list is an
unchanged front segment of the new one, and a second invocation with the
same fetch result appends the same batch again, duplicating it. -/
theorem c9_append_only (fetch : String → Option ApiData) (ch : EPGChannel) :
    ∃ l, ((get_programs fetch ch).1).programs = ch.programs ++ l
      ∧ ((get_programs fetch ((get_programs fetch ch).1)).1).programs
          = ch.programs ++ l ++ l := by
  refine ⟨gpAppendList fetch ch.svcid ch.id, ?_, ?_⟩
  · rw [get_programs_state]
  · rw [get_programs_state, get_programs_state]

/-! ## Claim C10 -/

/-- C10: when the channel's svcid is falsy, the API channel id falls back to
the part of the xmltv id before the first dot: when that is empty the call
returns at once with nothing appended and no exception, otherwise the call
proceeds exactly as with that derived id. -/
theorem c10_svcid_fallback (fetch : String → Option ApiData) (ch : EPGChannel)
    (h : truthyStr ch.svcid = false) :
    (untilDot ch.id = "" → get_programs fetch ch = (ch, none))
    ∧ (untilDot ch.id ≠ "" →
        get_programs fetch ch = getProgramsWith fetch (untilDot ch.id) ch) := by
  unfold get_programs
  constructor
  · intro he
    simp [h, he]
  · intro he
    simp [h, he]

def c10Channel : EPGChannel :=
  { id := "CH1.lg", name := "N", svcid := none, programs := [] }

/-- C10 witness: the fallback at a channel with no svcid and xmltv id
"CH1.lg". -/
theorem c10_svcid_fallback_witness :
    (untilDot c10Channel.id = "" →
        get_programs (fun _ => none) c10Channel = (c10Channel, none))
    ∧ (untilDot c10Channel.id ≠ "" →
        get_programs (fun _ => none) c10Channel =
          getProgramsWith (fun _ => none) (untilDot c10Channel.id) c10Channel) :=
  c10_svcid_fallback (fun _ => none) c10Channel rfl
